import Mathlib

/-!
Verification of the release-bundle creation/update source-resolution engine
of the jfrog-cli-artifactory plugin.

The Lean definitions below are a shallow embedding of the Go source under
`lifecycle/commands` (createcommon.go, createfrombuilds.go, the update
command) and the CLI-layer creation-spec resolution.  Go's multiple return
values `(T, error)` are embedded as `T × Option String` (the error message)
or `Except String T`; in-place slice mutation is embedded as a pure function
returning the updated list; external collaborators (Artifactory search,
build-number resolution, file reads) are threaded as explicit function
parameters.  Machine strings are Lean `String`s, Go string maps are embedded
as lookup functions defaulting to `""` (Go's zero value).
-/

/-! ## Error-message constants (createcommon.go) -/

def missingCreationSourcesErrMsg : String :=
  "unexpected err while validating spec - could not detect any creation sources"

def multipleCreationSourcesErrMsg : String :=
  "multiple creation sources were detected in separate spec files. Only a single creation source should be provided. Detected:"

def singleAqlErrMsg : String :=
  "only a single aql query can be provided"

def unsupportedCreationSourceMethod : String :=
  "creation source \x27package\x27 is not supported in current version"

/-! ## SourceType constants (jfrog-client-go lifecycle/services)

In Go, `services.SourceType` is a string type with one constant per kind.
The values "aql", "artifacts", "builds" and "release_bundles" are pinned by
the repository's own tests and string-literal comparisons; "packages" is the
remaining constant. -/

namespace services

def Aql : String := "aql"

def Artifacts : String := "artifacts"

def Builds : String := "builds"

def ReleaseBundles : String := "release_bundles"

def Packages : String := "packages"

end services

/-! ## coreutils.ListToText (jfrog-cli-core)

Joins a list with ", " and a final " and ", e.g. `["aql","artifacts","builds"]`
becomes "aql, artifacts and builds" (behavior pinned by
TestValidateCreationSources).  Go would panic on an empty list; callers in
this code base always pass at least two elements, we return "" there. -/

def listToText : List String → String
  | [] => ""
  | [x] => x
  | [x, y] => x ++ " and " ++ y
  | x :: xs => x ++ ", " ++ listToText xs

def generateSingleCreationSourceErr (detectedCreationSources : List String) : String :=
  multipleCreationSourcesErrMsg ++ " \x27" ++ listToText detectedCreationSources ++ "\x27"

/-! ## validateCreationSources (createcommon.go)

The Go function iterates over the detected list with an `aqlSrcCnt` counter,
returning early on the packages / differing-type checks when multi-source
support is off, and checks the final aql count after the loop.  The loop is
embedded as structural recursion carrying the counter; `whole` and `first`
are the full list and its first element, fixed for the whole iteration. -/

def validateCreationSourcesLoop (whole : List String) (first : String)
    (multipleSourcesAndPackagesSupported : Bool) (aqlSrcCnt : Nat) :
    List String → Option String
  | [] => if aqlSrcCnt > 1 then some singleAqlErrMsg else none
  | t :: rest =>
    let cnt := if t = services.Aql then aqlSrcCnt + 1 else aqlSrcCnt
    if multipleSourcesAndPackagesSupported = false then
      if t = services.Packages then
        some unsupportedCreationSourceMethod
      else if t ≠ first then
        some (generateSingleCreationSourceErr whole)
      else
        validateCreationSourcesLoop whole first multipleSourcesAndPackagesSupported cnt rest
    else
      validateCreationSourcesLoop whole first multipleSourcesAndPackagesSupported cnt rest

def validateCreationSources (detectedCreationSources : List String)
    (multipleSourcesAndPackagesSupported : Bool) : Option String :=
  match detectedCreationSources with
  | [] => some missingCreationSourcesErrMsg
  | first :: _ =>
    validateCreationSourcesLoop detectedCreationSources first
      multipleSourcesAndPackagesSupported 0 detectedCreationSources

/-! ## spec.File (jfrog-cli-core common/spec), fields used by the validator -/

structure Aql where
  itemsFind : String := ""
deriving DecidableEq, Repr

structure PathMapping where
  input : String := ""
  output : String := ""
deriving DecidableEq, Repr

structure File where
  aql : Aql := {}
  pattern : String := ""
  exclusions : List String := []
  target : String := ""
  props : String := ""
  excludeProps : String := ""
  sortOrder : String := ""
  sortBy : List String := []
  offset : Int := 0
  limit : Int := 0
  build : String := ""
  project : String := ""
  excludeArtifacts : String := ""
  includeDeps : String := ""
  bundle : String := ""
  publicGpgKey : String := ""
  recursive : String := ""
  regexp : String := ""
  ant : String := ""
  symlinks : String := ""
  transitive : String := ""
  archive : String := ""
  explode : String := ""
  bypassArchiveInspection : String := ""
  pathMapping : PathMapping := {}
  package : String := ""
  version : String := ""
  type : String := ""
  repoKey : String := ""
deriving DecidableEq, Repr

/-! ## Boolean string fields

Go's `strconv.ParseBool` accepts exactly twelve literals; it returns
`(false, err)` on anything else.  `clientutils.StringToBool` returns the
default on the empty string.  The spec-file accessors (`IsIncludeDeps` etc.)
call `StringToBool`; call sites that discard the error therefore observe
`false` on a parse failure. -/

def strconvParseBool (s : String) : Except String Bool :=
  if s = "1" ∨ s = "t" ∨ s = "T" ∨ s = "true" ∨ s = "TRUE" ∨ s = "True" then .ok true
  else if s = "0" ∨ s = "f" ∨ s = "F" ∨ s = "false" ∨ s = "FALSE" ∨ s = "False" then .ok false
  else .error ("strconv.ParseBool: parsing \x22" ++ s ++ "\x22: invalid syntax")

def stringToBool (boolVal : String) (defaultValue : Bool) : Except String Bool :=
  if 0 < boolVal.length then strconvParseBool boolVal else .ok defaultValue

def stringToBoolIgnoringErr (boolVal : String) (defaultValue : Bool) : Bool :=
  match stringToBool boolVal defaultValue with
  | .ok b => b
  | .error _ => false

/-! ## validateFile (createcommon.go) -/

def unsupportedSpecFieldsErrMsg : String :=
  "unsupported fields were provided in file spec. release bundle creation file spec only supports the following fields: \x27aql\x27, \x27build\x27, \x27includeDeps\x27, \x27bundle\x27, \x27project\x27, \x27pattern\x27, \x27exclusions\x27, \x27props\x27, \x27excludeProps\x27 and \x27recursive\x27"

def exactlyOneCreationSourceErrMsg : String :=
  "exactly one creation source should be defined per file (aql, builds, release bundles or pattern (artifacts))"

def aqlSourceFieldsErrMsg : String :=
  "aql creation source supports no other fields"

def buildsSourceFieldsErrMsg : String :=
  "builds creation source only supports the \x27includeDeps\x27 and \x27project\x27 fields"

def bundlesSourceFieldsErrMsg : String :=
  "release bundles creation source only supports the \x27project\x27 field"

def artifactsSourceFieldsErrMsg : String :=
  "release bundles creation source only supports the \x27exclusions\x27, \x27props\x27, \x27excludeProps\x27 and \x27recursive\x27 fields"

def packagesSourceFieldsErrMsg : String :=
  "release bundles creation source only supports the \x27version\x27, \x27type\x27, \x27repoKey\x27 fields"

def sumTrueValues (values : List Bool) : Nat :=
  values.foldl (fun acc v => if v then acc + 1 else acc) 0

def validateCreationSource (unsupportedFields : List Bool) (errMsg : String) : Option String :=
  if 0 < sumTrueValues unsupportedFields then some errMsg else none

def fileIsAql (file : File) : Bool := decide (0 < file.aql.itemsFind.length)

def fileIsBuild (file : File) : Bool := decide (0 < file.build.length)

def fileIsIncludeDeps (file : File) : Bool := stringToBoolIgnoringErr file.includeDeps false

def fileIsBundle (file : File) : Bool := decide (0 < file.bundle.length)

def fileIsProject (file : File) : Bool := decide (0 < file.project.length)

def fileIsPackage (file : File) : Bool := decide (0 < file.package.length)

def fileIsPattern (file : File) : Bool := decide (0 < file.pattern.length)

def fileIsExclusions (file : File) : Bool :=
  decide (0 < file.exclusions.length) && decide (0 < (file.exclusions.headD "").length)

def fileIsProps (file : File) : Bool := decide (0 < file.props.length)

def fileIsExcludeProps (file : File) : Bool := decide (0 < file.excludeProps.length)

/-- Disjunction of the fifteen always-rejected field indicators of `validateFile`. -/
def fileHasUnsupportedFields (file : File) : Bool :=
  (decide (0 < file.pathMapping.input.length) || decide (0 < file.pathMapping.output.length)) ||
  decide (0 < file.target.length) ||
  decide (0 < file.sortOrder.length) ||
  decide (0 < file.sortBy.length) ||
  stringToBoolIgnoringErr file.excludeArtifacts false ||
  decide (0 < file.publicGpgKey.length) ||
  decide (0 < file.offset) ||
  decide (0 < file.limit) ||
  stringToBoolIgnoringErr file.symlinks false ||
  decide (0 < file.archive.length) ||
  decide (file.ant = "true") ||
  decide (file.regexp = "true") ||
  stringToBoolIgnoringErr file.explode false ||
  stringToBoolIgnoringErr file.bypassArchiveInspection false ||
  stringToBoolIgnoringErr file.transitive false

def validateFile (file : File) (packageAndMultiSourceSupported : Bool) :
    String × Option String :=
  match stringToBool file.recursive true with
  | .error e =>
    ("", some ("invalid value provided to the \x27recursive\x27 field. error: " ++ e))
  | .ok isRecursive =>
    if fileHasUnsupportedFields file then
      ("", some unsupportedSpecFieldsErrMsg)
    else if !packageAndMultiSourceSupported &&
        sumTrueValues [fileIsAql file, fileIsBuild file, fileIsBundle file,
          fileIsPattern file] != 1 then
      ("", some exactlyOneCreationSourceErrMsg)
    else if fileIsAql file then
      (services.Aql, validateCreationSource
        [fileIsIncludeDeps file, fileIsProject file, fileIsExclusions file,
          fileIsProps file, fileIsExcludeProps file, !isRecursive]
        aqlSourceFieldsErrMsg)
    else if fileIsBuild file then
      (services.Builds, validateCreationSource
        [fileIsExclusions file, fileIsProps file, fileIsExcludeProps file, !isRecursive]
        buildsSourceFieldsErrMsg)
    else if fileIsBundle file then
      (services.ReleaseBundles, validateCreationSource
        [fileIsIncludeDeps file, fileIsExclusions file, fileIsProps file,
          fileIsExcludeProps file, !isRecursive]
        bundlesSourceFieldsErrMsg)
    else if fileIsPattern file then
      (services.Artifacts, validateCreationSource
        [fileIsIncludeDeps file, fileIsProject file]
        artifactsSourceFieldsErrMsg)
    else if fileIsPackage file then
      (services.Packages, validateCreationSource
        [fileIsIncludeDeps file, fileIsExclusions file, fileIsProps file,
          fileIsExcludeProps file, !isRecursive, fileIsProject file]
        packagesSourceFieldsErrMsg)
    else
      ("", some "unexpected err in spec validation")

example : validateFile { aql := { itemsFind := "abc" } } false = (services.Aql, none) := by decide

example : validateFile { build := "name/number", includeDeps := "true", project := "project" } false =
    (services.Builds, none) := by decide

example : validateFile { build := "name/number", recursive := "false" } false =
    (services.Builds, some buildsSourceFieldsErrMsg) := by decide

example : validateFile { package := "abc", version := "ver" } false =
    ("", some exactlyOneCreationSourceErrMsg) := by decide

example : validateCreationSources [services.Aql, services.Artifacts, services.Builds] false =
    some (multipleCreationSourcesErrMsg ++ " \x27aql, artifacts and builds\x27") := by decide

example : validateCreationSources [services.Packages] false =
    some unsupportedCreationSourceMethod := by decide

example : validateCreationSources [services.Aql, services.Aql] false = some singleAqlErrMsg := by decide

example : validateCreationSources [services.Aql, services.Artifacts, services.Builds,
    services.ReleaseBundles, services.ReleaseBundles, services.Packages, services.Packages] true =
    none := by decide

/-! ## Lemmas about the validateCreationSources loop -/

def countAql : List String → Nat
  | [] => 0
  | t :: rest => (if t = services.Aql then 1 else 0) + countAql rest

lemma validateCreationSourcesLoop_true (whole : List String) (first : String)
    (l : List String) : ∀ cnt : Nat,
    validateCreationSourcesLoop whole first true cnt l =
      if cnt + countAql l > 1 then some singleAqlErrMsg else none := by
  induction l with
  | nil => intro cnt; simp [validateCreationSourcesLoop, countAql]
  | cons t rest ih =>
    intro cnt
    simp only [validateCreationSourcesLoop, countAql, ih]
    by_cases h : t = services.Aql <;> simp [h] <;> congr 1 <;> simp <;> omega

lemma validateCreationSourcesLoop_false_homog (whole : List String) (first : String)
    (l : List String) (hfirst : first ≠ services.Packages) : ∀ cnt : Nat,
    (∀ x ∈ l, x = first) →
    validateCreationSourcesLoop whole first false cnt l =
      if cnt + countAql l > 1 then some singleAqlErrMsg else none := by
  induction l with
  | nil => intro cnt _; simp [validateCreationSourcesLoop, countAql]
  | cons t rest ih =>
    intro cnt hl
    have ht : t = first := hl t (List.mem_cons_self t rest)
    have hrest : ∀ x ∈ rest, x = first := fun x hx => hl x (List.mem_cons_of_mem t hx)
    simp only [validateCreationSourcesLoop, countAql]
    rw [if_pos trivial, if_neg (show ¬ t = services.Packages by rw [ht]; exact hfirst),
      if_neg (fun h => h ht), ih _ hrest]
    by_cases h : t = services.Aql
    · simp only [if_pos h, Nat.add_assoc]
    · simp only [if_neg h, Nat.zero_add]

lemma validateCreationSourcesLoop_false_packages (whole : List String) (first : String)
    (pre : List String) (rest : List String) : ∀ cnt : Nat,
    (∀ x ∈ pre, x = first) →
    validateCreationSourcesLoop whole first false cnt
        (pre ++ services.Packages :: rest) =
      some unsupportedCreationSourceMethod := by
  induction pre with
  | nil =>
    intro cnt _
    simp [validateCreationSourcesLoop]
  | cons x pre ih =>
    intro cnt hl
    have hx : x = first := hl x (List.mem_cons_self x pre)
    have hpre : ∀ y ∈ pre, y = first := fun y hy => hl y (List.mem_cons_of_mem x hy)
    simp only [List.cons_append, validateCreationSourcesLoop]
    rw [if_pos trivial]
    by_cases hp : x = services.Packages
    · rw [if_pos hp]
    · rw [if_neg hp, if_neg (fun h => h hx)]
      exact ih _ hpre

lemma validateCreationSourcesLoop_false_differ (whole : List String) (first : String)
    (pre : List String) (d : String) (rest : List String)
    (hd1 : d ≠ first) (hd2 : d ≠ services.Packages) : ∀ cnt : Nat,
    (∀ x ∈ pre, x = first) → first ≠ services.Packages →
    validateCreationSourcesLoop whole first false cnt (pre ++ d :: rest) =
      some (generateSingleCreationSourceErr whole) := by
  induction pre with
  | nil =>
    intro cnt _ _
    simp only [List.nil_append, validateCreationSourcesLoop]
    rw [if_pos trivial, if_neg hd2, if_pos hd1]
  | cons x pre ih =>
    intro cnt hl hfirst
    have hx : x = first := hl x (List.mem_cons_self x pre)
    have hpre : ∀ y ∈ pre, y = first := fun y hy => hl y (List.mem_cons_of_mem x hy)
    simp only [List.cons_append, validateCreationSourcesLoop]
    rw [if_pos trivial, if_neg (show ¬ x = services.Packages by rw [hx]; exact hfirst),
      if_neg (fun h => h hx)]
    exact ih _ hpre hfirst

set_option maxRecDepth 8192 in
lemma generateSingleCreationSourceErr_ne_singleAql (l : List String) :
    generateSingleCreationSourceErr l ≠ singleAqlErrMsg := by
  intro h
  have hlen := congrArg String.length h
  rw [generateSingleCreationSourceErr, String.length_append, String.length_append,
    String.length_append] at hlen
  have h1 : multipleCreationSourcesErrMsg.length = 123 := by decide
  have h2 : singleAqlErrMsg.length = 39 := by decide
  omega

lemma validateCreationSourcesLoop_ne_singleAql (whole : List String) (first : String)
    (flag : Bool) (l : List String) : ∀ cnt : Nat, cnt + countAql l ≤ 1 →
    validateCreationSourcesLoop whole first flag cnt l ≠ some singleAqlErrMsg := by
  induction l with
  | nil =>
    intro cnt h
    simp only [validateCreationSourcesLoop]
    rw [if_neg (by omega)]
    simp
  | cons t rest ih =>
    intro cnt h
    have hcnt : (if t = services.Aql then cnt + 1 else cnt) + countAql rest ≤ 1 := by
      simp only [countAql] at h
      by_cases ht : t = services.Aql <;> simp [ht] at h ⊢ <;> omega
    simp only [validateCreationSourcesLoop]
    by_cases hflag : flag = false
    · rw [if_pos hflag]
      by_cases hp : t = services.Packages
      · rw [if_pos hp]
        intro hc
        have := Option.some.inj hc
        revert this
        decide
      · rw [if_neg hp]
        by_cases hdiff : t ≠ first
        · rw [if_pos hdiff]
          intro hc
          exact generateSingleCreationSourceErr_ne_singleAql whole (Option.some.inj hc)
        · rw [if_neg hdiff]
          exact ih _ hcnt
    · rw [if_neg hflag]
      exact ih _ hcnt

/-! ## Claims C2, C3, C7: validateCreationSources -/

/-- C7, counterexample: the list `[aql, builds, aql]` contains two aql occurrences,
yet in non-multi-source mode `validateCreationSources` does not return the
single-aql error: the differing-type check fires first, with the
multiple-creation-sources message. -/
theorem C7_counterexample :
    1 < countAql [services.Aql, services.Builds, services.Aql] ∧
    validateCreationSources [services.Aql, services.Builds, services.Aql] false ≠
      some singleAqlErrMsg ∧
    validateCreationSources [services.Aql, services.Builds, services.Aql] false =
      some (generateSingleCreationSourceErr
        [services.Aql, services.Builds, services.Aql]) :=
  ⟨by decide, by decide, by decide⟩

/-- C7 (amended): in multi-source mode, every detected-type list with more than one
aql occurrence yields the "only a single aql query can be provided" error; in
non-multi-source mode the same holds for lists all of whose elements are aql
(a mixed list errors earlier with a different error); and with at most one aql
occurrence this error is never returned, in either mode. -/
theorem C7_amended :
    (∀ l : List String, 1 < countAql l →
      validateCreationSources l true = some singleAqlErrMsg) ∧
    (∀ l : List String, (∀ x ∈ l, x = services.Aql) → 1 < countAql l →
      validateCreationSources l false = some singleAqlErrMsg) ∧
    (∀ (l : List String) (flag : Bool), countAql l ≤ 1 →
      validateCreationSources l flag ≠ some singleAqlErrMsg) := by
  refine ⟨?_, ?_, ?_⟩
  · intro l h
    match l with
    | [] => simp [countAql] at h
    | first :: rest =>
      simp only [validateCreationSources]
      rw [validateCreationSourcesLoop_true, if_pos (by omega)]
  · intro l hall h
    match l with
    | [] => simp [countAql] at h
    | first :: rest =>
      have hf : first = services.Aql := hall first (List.mem_cons_self first rest)
      have hfp : first ≠ services.Packages := by rw [hf]; decide
      have hl : ∀ x ∈ first :: rest, x = first :=
        fun x hx => (hall x hx).trans hf.symm
      simp only [validateCreationSources]
      rw [validateCreationSourcesLoop_false_homog _ _ _ hfp _ hl, if_pos (by omega)]
  · intro l flag h
    match l with
    | [] =>
      simp only [validateCreationSources]
      intro hc
      have hm := Option.some.inj hc
      revert hm
      decide
    | first :: rest =>
      simp only [validateCreationSources]
      exact validateCreationSourcesLoop_ne_singleAql _ _ _ _ 0 (by omega)

/-- C7 witness: the amended theorem applied at `[aql, aql]` (both modes) and at
`[aql, builds]` in multi-source mode. -/
theorem C7_amended_witness :
    validateCreationSources [services.Aql, services.Aql] true = some singleAqlErrMsg ∧
    validateCreationSources [services.Aql, services.Aql] false = some singleAqlErrMsg ∧
    validateCreationSources [services.Aql, services.Builds] true ≠ some singleAqlErrMsg :=
  ⟨C7_amended.1 _ (by decide),
   C7_amended.2.1 _ (by decide) (by decide),
   C7_amended.2.2 _ _ (by decide)⟩

/-- C2, counterexample: the list `[aql, builds, packages]` contains the Packages
type, yet in non-multi-source mode `validateCreationSources` does not return
the unsupported-method error: the differing-type check fires at index 1,
before the scan reaches the Packages element. -/
theorem C2_counterexample :
    services.Packages ∈ [services.Aql, services.Builds, services.Packages] ∧
    validateCreationSources [services.Aql, services.Builds, services.Packages] false ≠
      some unsupportedCreationSourceMethod ∧
    validateCreationSources [services.Aql, services.Builds, services.Packages] false =
      some (generateSingleCreationSourceErr
        [services.Aql, services.Builds, services.Packages]) :=
  ⟨by decide, by decide, by decide⟩

/-- C2 (amended): `validateCreationSources [Builds, Packages] false` errors with
the unsupported-package-method message and `validateCreationSources
[Builds, Packages] true` returns no error; more generally, with the flag false,
an occurrence of Packages yields the unsupported-method error whenever every
element before the first Packages occurrence equals the first element of the
list (the left-to-right scan reaches the Packages element), independent of how
many Packages occurrences there are. -/
theorem C2_amended :
    validateCreationSources [services.Builds, services.Packages] false =
      some unsupportedCreationSourceMethod ∧
    validateCreationSources [services.Builds, services.Packages] true = none ∧
    (∀ (pre rest : List String),
      (∀ x ∈ pre, x = (pre ++ services.Packages :: rest).headD "") →
      validateCreationSources (pre ++ services.Packages :: rest) false =
        some unsupportedCreationSourceMethod) := by
  refine ⟨by decide, by decide, ?_⟩
  intro pre rest hpre
  cases pre with
  | nil =>
    simp only [List.nil_append, validateCreationSources]
    exact validateCreationSourcesLoop_false_packages _ _ [] rest 0 (by simp)
  | cons x pre =>
    have hx : ∀ y ∈ x :: pre, y = x := by
      intro y hy
      have := hpre y hy
      simpa using this
    simp only [List.cons_append, validateCreationSources]
    exact validateCreationSourcesLoop_false_packages _ _ (x :: pre) rest 0 hx

/-- C2 witness: the amended theorem's general part applied at
`[builds] ++ packages :: [packages]`. -/
theorem C2_amended_witness :
    validateCreationSources
        [services.Builds, services.Packages, services.Packages] false =
      some unsupportedCreationSourceMethod :=
  C2_amended.2.2 [services.Builds] [services.Packages] (by decide)

/-- C3, counterexample: for detected types `[aql, builds, builds]` in
non-multi-source mode the error message joins the full detected list in order,
listing "builds" twice; it is not the deduplicated message the claim
describes. -/
theorem C3_counterexample :
    validateCreationSources [services.Aql, services.Builds, services.Builds] false =
      some (multipleCreationSourcesErrMsg ++ " \x27aql, builds and builds\x27") ∧
    validateCreationSources [services.Aql, services.Builds, services.Builds] false ≠
      some (multipleCreationSourcesErrMsg ++ " \x27aql and builds\x27") :=
  ⟨by decide, by decide⟩

/-- C3 (amended): in non-multi-source mode, a detected-type list whose first
differing element is neither Packages nor preceded by a Packages occurrence
yields the "multiple creation sources" error, whose message human-joins the
FULL detected list in order, duplicates included (not deduplicated); in
particular one aql group followed by one build group yields the message ending
with Detected: \x27aql and builds\x27. -/
theorem C3_amended :
    validateCreationSources [services.Aql, services.Builds] false =
      some (multipleCreationSourcesErrMsg ++ " \x27aql and builds\x27") ∧
    (∀ (pre : List String) (d : String) (rest : List String),
      (∀ x ∈ pre, x = (pre ++ d :: rest).headD "") →
      (pre ++ d :: rest).headD "" ≠ services.Packages →
      d ≠ (pre ++ d :: rest).headD "" →
      d ≠ services.Packages →
      validateCreationSources (pre ++ d :: rest) false =
        some (generateSingleCreationSourceErr (pre ++ d :: rest))) := by
  refine ⟨by decide, ?_⟩
  intro pre d rest hpre hhead hd1 hd2
  cases pre with
  | nil =>
    exfalso
    apply hd1
    simp
  | cons x pre =>
    have hx : ∀ y ∈ x :: pre, y = x := by
      intro y hy
      have := hpre y hy
      simpa using this
    have hxp : x ≠ services.Packages := by simpa using hhead
    have hdx : d ≠ x := by simpa using hd1
    simp only [List.cons_append, validateCreationSources]
    exact validateCreationSourcesLoop_false_differ _ _ (x :: pre) d rest hdx hd2 0 hx hxp

/-- C3 witness: the amended theorem applied at `[aql] ++ builds :: [artifacts]`. -/
theorem C3_amended_witness :
    validateCreationSources
        [services.Aql, services.Builds, services.Artifacts] false =
      some (generateSingleCreationSourceErr
        [services.Aql, services.Builds, services.Artifacts]) :=
  C3_amended.2 [services.Aql] services.Builds [services.Artifacts]
    (by decide) (by decide) (by decide) (by decide)

/-! ## Claims C1, C4: validateFile -/

/-- C4, counterexample: validating a FileGroup whose only populated discriminator
is the package field, with the multi-source flag false, returns the generic
"exactly one creation source should be defined per file" error, not a distinct
unsupported-source-type error naming the package source. -/
theorem C4_counterexample :
    validateFile { package := "abc" } false = ("", some exactlyOneCreationSourceErrMsg) ∧
    exactlyOneCreationSourceErrMsg ≠ unsupportedCreationSourceMethod :=
  ⟨by decide, by decide⟩

/-- C4 (amended): with the multi-source-and-packages flag false, `validateFile`
on a FileGroup whose four non-package discriminators are unpopulated (and with
no always-unsupported field set and a parseable recursive field) returns the
generic exactly-one-creation-source error; the distinct unsupported-package
error is produced by `validateCreationSources` when the Packages type occurs
in its detected list in non-multi-source mode. -/
theorem C4_amended :
    (∀ f : File, fileIsAql f = false → fileIsBuild f = false → fileIsBundle f = false →
      fileIsPattern f = false → fileIsPackage f = true →
      fileHasUnsupportedFields f = false →
      (∃ b, stringToBool f.recursive true = .ok b) →
      validateFile f false = ("", some exactlyOneCreationSourceErrMsg)) ∧
    validateCreationSources [services.Packages] false =
      some unsupportedCreationSourceMethod := by
  refine ⟨?_, by decide⟩
  intro f h1 h2 h3 h4 h5 h6 h7
  obtain ⟨b, hb⟩ := h7
  simp [validateFile, hb, h1, h2, h3, h4, h5, h6, sumTrueValues]

/-- C4 witness: the amended theorem applied at a package-only FileGroup. -/
theorem C4_amended_witness :
    validateFile { package := "abc", version := "1.0.0" } false =
      ("", some exactlyOneCreationSourceErrMsg) :=
  C4_amended.1 { package := "abc", version := "1.0.0" }
    (by decide) (by decide) (by decide) (by decide) (by decide) (by decide)
    ⟨true, rfl⟩

/-- C1, counterexample: a FileGroup with exactly one of the four discriminators
populated (build) and none of the always-unsupported fields set, for which
`validateFile` in non-multi-source mode nevertheless returns an error (the
group also sets `recursive: "false"`, which the builds kind does not allow). -/
theorem C1_counterexample :
    fileHasUnsupportedFields { build := "name/number", recursive := "false" } = false ∧
    sumTrueValues [fileIsAql { build := "name/number", recursive := "false" },
      fileIsBuild { build := "name/number", recursive := "false" },
      fileIsBundle { build := "name/number", recursive := "false" },
      fileIsPattern { build := "name/number", recursive := "false" }] = 1 ∧
    validateFile { build := "name/number", recursive := "false" } false =
      (services.Builds, some buildsSourceFieldsErrMsg) :=
  ⟨by decide, by decide, by decide⟩

/-- C1 (amended): for a FileGroup with none of the always-unsupported fields
set, in non-multi-source mode: if more than one of the four discriminators
{aql, build, bundle, pattern} is populated, `validateFile` returns an error;
and if exactly one is populated AND the group populates no field outside the
matched kind's allowed companion set (with the recursive field absent or
parsing to its default for the kinds that forbid it), `validateFile` returns
the matching SourceType and no error. -/
theorem C1_amended (f : File) :
    (fileHasUnsupportedFields f = false →
      1 < sumTrueValues [fileIsAql f, fileIsBuild f, fileIsBundle f, fileIsPattern f] →
      ((validateFile f false).2).isSome = true) ∧
    (fileIsAql f = true → fileIsBuild f = false → fileIsBundle f = false →
      fileIsPattern f = false → fileHasUnsupportedFields f = false →
      stringToBool f.recursive true = .ok true →
      fileIsIncludeDeps f = false → fileIsProject f = false → fileIsExclusions f = false →
      fileIsProps f = false → fileIsExcludeProps f = false →
      validateFile f false = (services.Aql, none)) ∧
    (fileIsBuild f = true → fileIsAql f = false → fileIsBundle f = false →
      fileIsPattern f = false → fileHasUnsupportedFields f = false →
      stringToBool f.recursive true = .ok true →
      fileIsExclusions f = false → fileIsProps f = false → fileIsExcludeProps f = false →
      validateFile f false = (services.Builds, none)) ∧
    (fileIsBundle f = true → fileIsAql f = false → fileIsBuild f = false →
      fileIsPattern f = false → fileHasUnsupportedFields f = false →
      stringToBool f.recursive true = .ok true →
      fileIsIncludeDeps f = false → fileIsExclusions f = false → fileIsProps f = false →
      fileIsExcludeProps f = false →
      validateFile f false = (services.ReleaseBundles, none)) ∧
    (fileIsPattern f = true → fileIsAql f = false → fileIsBuild f = false →
      fileIsBundle f = false → fileHasUnsupportedFields f = false →
      (∃ b, stringToBool f.recursive true = .ok b) →
      fileIsIncludeDeps f = false → fileIsProject f = false →
      validateFile f false = (services.Artifacts, none)) := by
  refine ⟨?_, ?_, ?_, ?_, ?_⟩
  · intro hU hsum
    cases hb : stringToBool f.recursive true with
    | error e => simp [validateFile, hb]
    | ok b =>
      have hne : sumTrueValues [fileIsAql f, fileIsBuild f, fileIsBundle f,
          fileIsPattern f] ≠ 1 := by omega
      simp [validateFile, hb, hU, hne]
  · intro h1 h2 h3 h4 hU hb hid hpj hex hps hxp
    simp [validateFile, hb, hU, h1, h2, h3, h4, hid, hpj, hex, hps, hxp,
      sumTrueValues, validateCreationSource]
  · intro h1 h2 h3 h4 hU hb hex hps hxp
    simp [validateFile, hb, hU, h1, h2, h3, h4, hex, hps, hxp,
      sumTrueValues, validateCreationSource]
  · intro h1 h2 h3 h4 hU hb hid hex hps hxp
    simp [validateFile, hb, hU, h1, h2, h3, h4, hid, hex, hps, hxp,
      sumTrueValues, validateCreationSource]
  · intro h1 h2 h3 h4 hU hb hid hpj
    obtain ⟨b, hb⟩ := hb
    simp [validateFile, hb, hU, h1, h2, h3, h4, hid, hpj,
      sumTrueValues, validateCreationSource]

/-- FileGroup matching the repository test case "valid artifacts". -/
def patternFileExample : File where
  pattern := "repo/path/file"
  exclusions := ["exclude"]
  props := "prop"
  excludeProps := "exclude prop"
  recursive := "false"

/-- C1 witness: the amended theorem applied at one concrete FileGroup per
conjunct (two populated discriminators; then a valid aql, build, bundle and
pattern group respectively). -/
theorem C1_amended_witness :
    ((validateFile { aql := { itemsFind := "x" }, build := "b/1" } false).2).isSome = true ∧
    validateFile { aql := { itemsFind := "abc" } } false = (services.Aql, none) ∧
    validateFile { build := "name/number", includeDeps := "true", project := "project" }
      false = (services.Builds, none) ∧
    validateFile { bundle := "name/number", project := "project" } false =
      (services.ReleaseBundles, none) ∧
    validateFile patternFileExample false = (services.Artifacts, none) :=
  ⟨(C1_amended _).1 (by decide) (by decide),
   (C1_amended _).2.1 (by decide) (by decide) (by decide) (by decide) (by decide)
     rfl (by decide) (by decide) (by decide) (by decide) (by decide),
   (C1_amended _).2.2.1 (by decide) (by decide) (by decide) (by decide) (by decide)
     rfl (by decide) (by decide) (by decide),
   (C1_amended _).2.2.2.1 (by decide) (by decide) (by decide) (by decide) (by decide)
     rfl (by decide) (by decide) (by decide) (by decide),
   (C1_amended _).2.2.2.2 (by decide) (by decide) (by decide) (by decide) (by decide)
     ⟨false, rfl⟩ (by decide) (by decide)⟩

/-! ## RbSource payloads (jfrog-client-go lifecycle/services) -/

structure BuildSource where
  buildRepository : String := ""
  buildName : String := ""
  buildNumber : String := ""
  includeDependencies : Bool := false
deriving DecidableEq, Repr

structure ReleaseBundleSource where
  projectKey : String := ""
  releaseBundleName : String := ""
  releaseBundleVersion : String := ""
  repositoryKey : String := ""
deriving DecidableEq, Repr

structure ArtifactSource where
  path : String := ""
  sha256 : String := ""
deriving DecidableEq, Repr

structure PackageSource where
  packageName : String := ""
  packageVersion : String := ""
  packageType : String := ""
  repositoryKey : String := ""
deriving DecidableEq, Repr

structure RbSource where
  sourceType : String := ""
  aql : String := ""
  builds : List BuildSource := []
  releaseBundles : List ReleaseBundleSource := []
  artifacts : List ArtifactSource := []
  packages : List PackageSource := []
deriving DecidableEq, Repr

/-! ## updateReleaseBundleRepoKeyWithProject (createcommon.go)

The Go function mutates the slice in place; the embedding returns the updated
list.  The inner loop body is the per-entry transform below. -/

def updateRepoKeyOfReleaseBundleSource (rb : ReleaseBundleSource) : ReleaseBundleSource :=
  if rb.projectKey ≠ "" then
    { rb with repositoryKey := rb.projectKey ++ "-release-bundles-v2" }
  else rb

def updateReleaseBundleRepoKeyWithProject (sources : List RbSource) : List RbSource :=
  match sources with
  | [] => []
  | first :: rest =>
    if first.sourceType ≠ "release_bundles" then first :: rest
    else (first :: rest).map fun s =>
      { s with releaseBundles := s.releaseBundles.map updateRepoKeyOfReleaseBundleSource }

/-! ## Go string helpers

`goSplit` embeds Go's `strings.Split` for a one-character separator
(`Split("", sep) = [""]`, empty segments preserved); `goSplitN2` embeds
`strings.SplitN(s, sep, 2)`, returning `none` when the separator does not
occur (Go's one-element result); `goTrimSpace` embeds `strings.TrimSpace`
over the Latin-1 white-space set of `unicode.IsSpace`. -/

def goSplitAux (sep : Char) : List Char → List Char → List (List Char)
  | [], acc => [acc.reverse]
  | c :: rest, acc =>
    if c = sep then acc.reverse :: goSplitAux sep rest []
    else goSplitAux sep rest (c :: acc)

def goSplit (s : String) (sep : Char) : List String :=
  (goSplitAux sep s.toList []).map fun cs => String.mk cs

def goSplitN2 (sep : Char) : List Char → Option (List Char × List Char)
  | [] => none
  | c :: rest =>
    if c = sep then some ([], rest)
    else (goSplitN2 sep rest).map fun p => (c :: p.1, p.2)

def isGoSpace (c : Char) : Bool :=
  decide (c ∈ [' ', '\t', '\n', '\x0b', '\x0c', '\r', '\x85', '\xa0'])

def goTrimSpace (s : String) : String :=
  String.mk (((s.toList.dropWhile isGoSpace).reverse.dropWhile isGoSpace).reverse)

def parseBoolIgnoringErr (s : String) : Bool :=
  match strconvParseBool s with
  | .ok b => b
  | .error _ => false

/-- GetBuildInfoRepositoryByProject (jfrog-client-go artifactory/services/utils),
an external helper used verbatim by the builders: empty or "default" project
maps to the global build-info repository, otherwise `<project>-build-info`. -/
def GetBuildInfoRepositoryByProject (projectKey : String) : String :=
  if projectKey = "" ∨ projectKey = "default" then "artifactory-build-info"
  else projectKey ++ "-build-info"

/-! ## parseKeyValueString (createcommon.go)

Go builds a `map[string]string`; the embedding folds the comma-separated
pairs into a lookup function whose default is `""` (the map's zero value).
A pair without \x27=\x27 is logged as a warning and skipped (taking no part in the
map); later pairs overwrite earlier ones, as map assignment does. -/

def parseKeyValueStep (result : String → String) (pair : String) : String → String :=
  match goSplitN2 '=' pair.toList with
  | none => result
  | some kv =>
    let key := goTrimSpace (String.mk kv.1)
    let value := goTrimSpace (String.mk kv.2)
    fun q => if q = key then value else result q

def parseKeyValueString (input : String) : String → String :=
  (goSplit input ',').foldl parseKeyValueStep fun _ => ""

/-! ## buildRbBuildsSources / buildRbReleaseBundlesSources (createcommon.go) -/

def buildRbBuildsSources (sourcesStr projectKey : String) (sources : List RbSource) :
    List RbSource :=
  let buildSources := (goSplit sourcesStr ';').map fun entry =>
    let buildInfoMap := parseKeyValueString entry
    let includeDep := parseBoolIgnoringErr (buildInfoMap "include-deps")
    { buildRepository := GetBuildInfoRepositoryByProject projectKey,
      buildName := buildInfoMap "name",
      buildNumber := buildInfoMap "id",
      includeDependencies := includeDep : BuildSource }
  if 0 < buildSources.length then
    sources ++ [{ sourceType := "builds", builds := buildSources }]
  else sources

def buildRbReleaseBundlesSources (sourcesStr projectKey : String)
    (sources : List RbSource) : List RbSource :=
  let releaseBundleSources := (goSplit sourcesStr ';').map fun entry =>
    let buildInfoMap := parseKeyValueString entry
    { projectKey := projectKey,
      releaseBundleName := buildInfoMap "name",
      releaseBundleVersion := buildInfoMap "version" : ReleaseBundleSource }
  if 0 < releaseBundleSources.length then
    sources ++ [{ sourceType := "release_bundles", releaseBundles := releaseBundleSources }]
  else sources

/-! ## Command state and external collaborators

`SpecFiles.files` is `none` for Go's nil `Files` slice.  The network and file
system collaborators of the builders are threaded explicitly: build-identifier
resolution, latest-build-number lookup, artifact search, and the two legacy
spec-file readers. -/

structure SpecFiles where
  files : Option (List File) := none
deriving DecidableEq, Repr

structure SourceBuildSpec where
  name : String := ""
  number : String := ""
  project : String := ""
  includeDependencies : Bool := false
deriving DecidableEq, Repr

structure SourceReleaseBundleSpec where
  name : String := ""
  version : String := ""
  project : String := ""
deriving DecidableEq, Repr

structure Collaborators where
  resolveBuildIdentifier : String → String → Except String (String × String)
  latestBuildNumber : String → String → Except String String
  searchArtifacts : List File → Except String (List ArtifactSource)
  readBuildsSpec : String → Except String (List SourceBuildSpec)
  readReleaseBundlesSpec : String → Except String (List SourceReleaseBundleSpec)

structure ReleaseBundleCreateCommand where
  sourcesBuilds : String := ""
  sourcesReleaseBundles : String := ""
  rbProjectKey : String := ""
  spec : Option SpecFiles := none
  buildsSpecPath : String := ""
  releaseBundlesSpecPath : String := ""

structure ReleaseBundleUpdateCommand where
  sourcesBuilds : String := ""
  sourcesReleaseBundles : String := ""
  rbProjectKey : String := ""
  spec : Option SpecFiles := none

/-- Go dereferences `rbc.spec.Files` directly on the spec-derived build paths;
those paths are only reached after the spec was checked non-nil, so the
fallback `[]` here is never observed on Go-reachable states. -/
def ReleaseBundleCreateCommand.specFilesList (rbc : ReleaseBundleCreateCommand) :
    List File :=
  match rbc.spec with
  | none => []
  | some sf => sf.files.getD []

def ReleaseBundleUpdateCommand.specFilesList (rbu : ReleaseBundleUpdateCommand) :
    List File :=
  match rbu.spec with
  | none => []
  | some sf => sf.files.getD []

/-! ## Spec-derived source builders (createcommon.go, createfrombuilds.go,
createfrombundles.go, the update command) -/

def getBuildDetailsFromIdentifier (env : Collaborators)
    (buildIdentifier project : String) : Except String (String × String) :=
  match env.resolveBuildIdentifier buildIdentifier project with
  | .error e => .error e
  | .ok nameAndNumber =>
    if nameAndNumber.1 = "" ∨ nameAndNumber.2 = "" then
      .error ("could not identify a build info by the \x27" ++ buildIdentifier ++
        "\x27 identifier in artifactory")
    else .ok nameAndNumber

/-- ParseNameAndVersion (jfrog-client-go, external): strict two-part split of
`name/version`, modelled at its interface; its exact error text is not relied
upon by any theorem below. -/
def parseNameAndVersion (identifier : String) : Except String (String × String) :=
  match goSplit identifier '/' with
  | [name, version] => .ok (name, version)
  | _ => .error ("invalid release bundle identifier format: " ++ identifier)

def convertSpecToReleaseBundlesSource : List File → Except String (List ReleaseBundleSource)
  | [] => .ok []
  | file :: rest =>
    if file.bundle = "" then convertSpecToReleaseBundlesSource rest
    else
      match parseNameAndVersion file.bundle with
      | .error e => .error e
      | .ok nv =>
        if nv.1 = "" ∨ nv.2 = "" then
          .error ("invalid release bundle source was provided. Both name and version are mandatory. Provided name: \x27" ++
            nv.1 ++ "\x27, version: \x27" ++ nv.2 ++ "\x27")
        else
          match convertSpecToReleaseBundlesSource rest with
          | .error e => .error e
          | .ok tail =>
            .ok ({ releaseBundleName := nv.1, releaseBundleVersion := nv.2,
                   projectKey := file.project } :: tail)

def convertSpecToBuildsSource (env : Collaborators) :
    List File → Except String (List BuildSource)
  | [] => .ok []
  | file :: rest =>
    if file.build = "" then convertSpecToBuildsSource env rest
    else
      match getBuildDetailsFromIdentifier env file.build file.project with
      | .error e => .error e
      | .ok nameAndNumber =>
        match stringToBool file.includeDeps false with
        | .error e => .error e
        | .ok isIncludeDeps =>
          match convertSpecToBuildsSource env rest with
          | .error e => .error e
          | .ok tail =>
            .ok ({ buildName := nameAndNumber.1, buildNumber := nameAndNumber.2,
                   buildRepository := GetBuildInfoRepositoryByProject file.project,
                   includeDependencies := isIncludeDeps } :: tail)

def getArtifactFilesFromSpec (files : List File) : List File :=
  files.filter fun file => file.pattern ≠ ""

def createAqlQueryFromSpec : List File → String
  | [] => ""
  | file :: rest =>
    if 0 < file.aql.itemsFind.length then "items.find(" ++ file.aql.itemsFind ++ ")"
    else createAqlQueryFromSpec rest

def createPackageSourceFromSpec (files : List File) : List PackageSource :=
  (files.filter fun file => file.package ≠ "").map fun file =>
    { packageName := file.package, packageVersion := file.version,
      packageType := file.type, repositoryKey := file.repoKey }

def getLatestBuildNumberIfEmpty (env : Collaborators)
    (buildName buildNumber project : String) : Except String String :=
  if buildNumber ≠ "" then .ok buildNumber
  else
    match env.latestBuildNumber buildName project with
    | .error e => .error e
    | .ok num =>
      if num = "" then
        .error ("could not find a build info with name \x27" ++ buildName ++
          "\x27 in artifactory")
      else .ok num

def convertBuildsSpecToBuildsSource (env : Collaborators) :
    List SourceBuildSpec → Except String (List BuildSource)
  | [] => .ok []
  | build :: rest =>
    match getLatestBuildNumberIfEmpty env build.name build.number build.project with
    | .error e => .error e
    | .ok buildNumber =>
      match convertBuildsSpecToBuildsSource env rest with
      | .error e => .error e
      | .ok tail =>
        .ok ({ buildName := build.name, includeDependencies := build.includeDependencies,
               buildNumber := buildNumber,
               buildRepository := GetBuildInfoRepositoryByProject build.project } :: tail)

def createBuildSourceFromSpec (env : Collaborators)
    (rbc : ReleaseBundleCreateCommand) : Except String (List BuildSource) :=
  if rbc.buildsSpecPath ≠ "" then
    match env.readBuildsSpec rbc.buildsSpecPath with
    | .error e => .error e
    | .ok builds => convertBuildsSpecToBuildsSource env builds
  else convertSpecToBuildsSource env rbc.specFilesList

def createReleaseBundleSourceFromSpec (env : Collaborators)
    (rbc : ReleaseBundleCreateCommand) : Except String (List ReleaseBundleSource) :=
  if rbc.releaseBundlesSpecPath ≠ "" then
    match env.readReleaseBundlesSpec rbc.releaseBundlesSpecPath with
    | .error e => .error e
    | .ok bundles =>
      .ok (bundles.map fun rb =>
        { releaseBundleName := rb.name, releaseBundleVersion := rb.version,
          projectKey := rb.project })
  else convertSpecToReleaseBundlesSource rbc.specFilesList

def createArtifactSourceFromSpecFiles (env : Collaborators) (files : List File) :
    Except String (List ArtifactSource) :=
  env.searchArtifacts (getArtifactFilesFromSpec files)

/-! ## detectSourceTypesFromSpec (createcommon.go) -/

def detectSourceTypesFromSpec : List File → Bool → Except String (List String)
  | [], _ => .ok []
  | file :: rest, multiSrcAndPackageSupported =>
    match validateFile file multiSrcAndPackageSupported with
    | (_, some e) => .error e
    | (sourceType, none) =>
      match detectSourceTypesFromSpec rest multiSrcAndPackageSupported with
      | .error e => .error e
      | .ok tail => .ok (sourceType :: tail)

/-! ## Create command: multi-source assembly (createcommon.go) -/

def buildReleaseBundleSourcesParams (rbc : ReleaseBundleCreateCommand) : List RbSource :=
  let sources : List RbSource := []
  let sources :=
    if rbc.sourcesBuilds ≠ "" then
      buildRbBuildsSources rbc.sourcesBuilds rbc.rbProjectKey sources
    else sources
  let sources :=
    if rbc.sourcesReleaseBundles ≠ "" then
      buildRbReleaseBundlesSources rbc.sourcesReleaseBundles rbc.rbProjectKey sources
    else sources
  sources

def atLeastASingleMultiSourceRBDefinedFromCommand
    (rbc : ReleaseBundleCreateCommand) : Bool :=
  rbc.sourcesReleaseBundles ≠ "" || rbc.sourcesBuilds ≠ ""

def multiSourcesDefinedFromSpec (rbc : ReleaseBundleCreateCommand) :
    Except String (List String) :=
  match rbc.spec with
  | some sf =>
    match sf.files with
    | some files =>
      match detectSourceTypesFromSpec files true with
      | .error e => .error e
      | .ok detectedCreationSources =>
        match validateCreationSources detectedCreationSources true with
        | some e => .error e
        | none => .ok detectedCreationSources
    | none => .error "no spec file input"
  | none => .error "no spec file input"

def buildReleaseBundleSourcesParamsFromSpecLoop (env : Collaborators)
    (rbc : ReleaseBundleCreateCommand) :
    List String → List String → List RbSource → Except String (List RbSource)
  | [], _, sources => .ok sources
  | sourceType :: rest, handledSources, sources =>
    if sourceType ∈ handledSources then
      buildReleaseBundleSourcesParamsFromSpecLoop env rbc rest handledSources sources
    else
      let handled := sourceType :: handledSources
      if sourceType = services.ReleaseBundles then
        match createReleaseBundleSourceFromSpec env rbc with
        | .error e => .error e
        | .ok releaseBundleSources =>
          buildReleaseBundleSourcesParamsFromSpecLoop env rbc rest handled
            (if 0 < releaseBundleSources.length then
              sources ++ [{ sourceType := services.ReleaseBundles,
                            releaseBundles := releaseBundleSources }]
            else sources)
      else if sourceType = services.Builds then
        match createBuildSourceFromSpec env rbc with
        | .error e => .error e
        | .ok buildSources =>
          buildReleaseBundleSourcesParamsFromSpecLoop env rbc rest handled
            (if 0 < buildSources.length then
              sources ++ [{ sourceType := services.Builds, builds := buildSources }]
            else sources)
      else if sourceType = services.Artifacts then
        match createArtifactSourceFromSpecFiles env rbc.specFilesList with
        | .error e => .error e
        | .ok artifactSources =>
          buildReleaseBundleSourcesParamsFromSpecLoop env rbc rest handled
            (if 0 < artifactSources.length then
              sources ++ [{ sourceType := services.Artifacts, artifacts := artifactSources }]
            else sources)
      else if sourceType = services.Packages then
        let packagesSource := createPackageSourceFromSpec rbc.specFilesList
        buildReleaseBundleSourcesParamsFromSpecLoop env rbc rest handled
          (if 0 < packagesSource.length then
            sources ++ [{ sourceType := services.Packages, packages := packagesSource }]
          else sources)
      else if sourceType = services.Aql then
        buildReleaseBundleSourcesParamsFromSpecLoop env rbc rest handled
          (sources ++ [{ sourceType := services.Aql,
                         aql := createAqlQueryFromSpec rbc.specFilesList }])
      else .error ("unexpected source type: " ++ sourceType)

def buildReleaseBundleSourcesParamsFromSpec (env : Collaborators)
    (rbc : ReleaseBundleCreateCommand) (detectedSources : List String) :
    Except String (List RbSource) :=
  buildReleaseBundleSourcesParamsFromSpecLoop env rbc detectedSources [] []

def getMultipleSourcesIfDefined (env : Collaborators)
    (rbc : ReleaseBundleCreateCommand) : Except String (List RbSource) :=
  if atLeastASingleMultiSourceRBDefinedFromCommand rbc then
    .ok (buildReleaseBundleSourcesParams rbc)
  else
    match multiSourcesDefinedFromSpec rbc with
    | .error e => .error e
    | .ok detectedCreationSources =>
      buildReleaseBundleSourcesParamsFromSpec env rbc detectedCreationSources

/-! ## Update command: getAddSources and friends (the update command file) -/

def noSpecOrSourceFlagsErrMsg : String :=
  "no spec file or source flags provided"

def buildSourcesFromCommandFlags (rbu : ReleaseBundleUpdateCommand) : List RbSource :=
  let sources : List RbSource := []
  let sources :=
    if rbu.sourcesBuilds ≠ "" then
      buildRbBuildsSources rbu.sourcesBuilds rbu.rbProjectKey sources
    else sources
  let sources :=
    if rbu.sourcesReleaseBundles ≠ "" then
      buildRbReleaseBundlesSources rbu.sourcesReleaseBundles rbu.rbProjectKey sources
    else sources
  sources

def convertSpecToSourcesLoop (env : Collaborators) (files : List File) :
    List String → List String → List RbSource → Except String (List RbSource)
  | [], _, sources => .ok sources
  | sourceType :: rest, handledSources, sources =>
    if sourceType ∈ handledSources then
      convertSpecToSourcesLoop env files rest handledSources sources
    else
      let handled := sourceType :: handledSources
      if sourceType = services.ReleaseBundles then
        match convertSpecToReleaseBundlesSource files with
        | .error e => .error e
        | .ok rbSources =>
          convertSpecToSourcesLoop env files rest handled
            (if 0 < rbSources.length then
              sources ++ [{ sourceType := services.ReleaseBundles,
                            releaseBundles := rbSources }]
            else sources)
      else if sourceType = services.Builds then
        match convertSpecToBuildsSource env files with
        | .error e => .error e
        | .ok buildSources =>
          convertSpecToSourcesLoop env files rest handled
            (if 0 < buildSources.length then
              sources ++ [{ sourceType := services.Builds, builds := buildSources }]
            else sources)
      else if sourceType = services.Artifacts then
        match createArtifactSourceFromSpecFiles env files with
        | .error e => .error e
        | .ok artifactSources =>
          convertSpecToSourcesLoop env files rest handled
            (if 0 < artifactSources.length then
              sources ++ [{ sourceType := services.Artifacts,
                            artifacts := artifactSources }]
            else sources)
      else .error ("unexpected source type: " ++ sourceType)

def buildSourcesFromSpec (env : Collaborators) (files : List File) :
    Except String (List RbSource) :=
  match detectSourceTypesFromSpec files true with
  | .error e => .error e
  | .ok detectedSources =>
    match validateCreationSources detectedSources true with
    | some e => .error e
    | none => convertSpecToSourcesLoop env files detectedSources [] []

def getAddSources (env : Collaborators) (rbu : ReleaseBundleUpdateCommand) :
    Except String (List RbSource) :=
  if rbu.sourcesBuilds ≠ "" || rbu.sourcesReleaseBundles ≠ "" then
    .ok (buildSourcesFromCommandFlags rbu)
  else
    match rbu.spec with
    | none => .error noSpecOrSourceFlagsErrMsg
    | some sf =>
      match sf.files with
      | none => .error noSpecOrSourceFlagsErrMsg
      | some files => buildSourcesFromSpec env files

/-! ## CLI layer: getReleaseBundleCreationSpec (lifecycle cli)

The CLI context is embedded with one indicator per flag the function reads:
the deprecated builds / release-bundles path flags, the two multi-source
source-type flags, the spec flag, and the build-name / build-number flags
(`none` when the flag is unset); the two environment variables are carried
as plain strings (`""` when unset).  The external `GetSpec` /
`CreateSpecFromBuildNameNumberAndProject` outcomes are embedded as tagged
results. -/

structure CreationSpecContext where
  buildsFlagSet : Bool := false
  releaseBundlesFlagSet : Bool := false
  sourceTypeReleaseBundlesFlagSet : Bool := false
  sourceTypeBuildsFlagSet : Bool := false
  specFlagSet : Bool := false
  buildNameFlag : Option String := none
  buildNumberFlag : Option String := none
  envBuildName : String := ""
  envBuildNumber : String := ""
  project : String := ""
deriving DecidableEq, Repr

inductive CreationSpecResult where
  | noSpec
  | specFromFile
  | specFromBuildIdentity (buildName buildNumber project : String)
  | failure (msg : String)
deriving DecidableEq, Repr

def missingCreationSpecInputErrMsg : String :=
  "either the --spec flag must be provided, or both --build-name and --build-number flags (or their corresponding environment variables JFROG_CLI_BUILD_NAME and JFROG_CLI_BUILD_NUMBER) must be set"

def getStringFlagOrEnv (flagValue : Option String) (envValue : String) : String :=
  match flagValue with
  | some v => v
  | none => envValue

def getReleaseBundleCreationSpec (c : CreationSpecContext) : CreationSpecResult :=
  if c.buildsFlagSet || c.releaseBundlesFlagSet then .noSpec
  else if c.sourceTypeReleaseBundlesFlagSet || c.sourceTypeBuildsFlagSet then .noSpec
  else if c.specFlagSet then .specFromFile
  else
    let buildName := getStringFlagOrEnv c.buildNameFlag c.envBuildName
    let buildNumber := getStringFlagOrEnv c.buildNumberFlag c.envBuildNumber
    if buildName ≠ "" ∧ buildNumber ≠ "" then
      .specFromBuildIdentity buildName buildNumber c.project
    else .failure missingCreationSpecInputErrMsg

/-! ## Claim C5: updateReleaseBundleRepoKeyWithProject frame property -/

lemma updateReleaseBundleRepoKeyWithProject_skip (first : RbSource)
    (rest : List RbSource) (h : first.sourceType ≠ "release_bundles") :
    updateReleaseBundleRepoKeyWithProject (first :: rest) = first :: rest := by
  simp only [updateReleaseBundleRepoKeyWithProject]
  rw [if_pos h]

lemma updateReleaseBundleRepoKeyWithProject_act (first : RbSource)
    (rest : List RbSource) (h : first.sourceType = "release_bundles") :
    updateReleaseBundleRepoKeyWithProject (first :: rest) =
      (first :: rest).map fun s =>
        { s with releaseBundles := s.releaseBundles.map updateRepoKeyOfReleaseBundleSource } := by
  simp only [updateReleaseBundleRepoKeyWithProject]
  rw [if_neg (not_not_intro h)]

/-- C5: the transform is the identity on the empty list and whenever the first
element's type is not "release_bundles"; when the first element's type is
"release_bundles" it rewrites every element's releaseBundles sub-list with the
per-entry transform while keeping every other field, and the per-entry
transform sets RepositoryKey to ProjectKey ++ "-release-bundles-v2" exactly on
entries with a non-empty ProjectKey, leaving name, version, project and (for
empty-project entries) the repository key unchanged. -/
theorem C5_frame (sources : List RbSource) :
    updateReleaseBundleRepoKeyWithProject [] = [] ∧
    (∀ (h : sources ≠ []), (sources.head h).sourceType ≠ "release_bundles" →
      updateReleaseBundleRepoKeyWithProject sources = sources) ∧
    (∀ (h : sources ≠ []), (sources.head h).sourceType = "release_bundles" →
      (updateReleaseBundleRepoKeyWithProject sources).length = sources.length ∧
      (∀ (i : Nat) (hi : i < sources.length)
          (hi2 : i < (updateReleaseBundleRepoKeyWithProject sources).length),
        ((updateReleaseBundleRepoKeyWithProject sources).get ⟨i, hi2⟩).sourceType =
          (sources.get ⟨i, hi⟩).sourceType ∧
        ((updateReleaseBundleRepoKeyWithProject sources).get ⟨i, hi2⟩).aql =
          (sources.get ⟨i, hi⟩).aql ∧
        ((updateReleaseBundleRepoKeyWithProject sources).get ⟨i, hi2⟩).builds =
          (sources.get ⟨i, hi⟩).builds ∧
        ((updateReleaseBundleRepoKeyWithProject sources).get ⟨i, hi2⟩).artifacts =
          (sources.get ⟨i, hi⟩).artifacts ∧
        ((updateReleaseBundleRepoKeyWithProject sources).get ⟨i, hi2⟩).packages =
          (sources.get ⟨i, hi⟩).packages ∧
        ((updateReleaseBundleRepoKeyWithProject sources).get ⟨i, hi2⟩).releaseBundles =
          (sources.get ⟨i, hi⟩).releaseBundles.map updateRepoKeyOfReleaseBundleSource)) ∧
    (∀ rb : ReleaseBundleSource,
      (updateRepoKeyOfReleaseBundleSource rb).projectKey = rb.projectKey ∧
      (updateRepoKeyOfReleaseBundleSource rb).releaseBundleName = rb.releaseBundleName ∧
      (updateRepoKeyOfReleaseBundleSource rb).releaseBundleVersion = rb.releaseBundleVersion ∧
      (rb.projectKey ≠ "" → (updateRepoKeyOfReleaseBundleSource rb).repositoryKey =
        rb.projectKey ++ "-release-bundles-v2") ∧
      (rb.projectKey = "" → (updateRepoKeyOfReleaseBundleSource rb).repositoryKey =
        rb.repositoryKey)) := by
  refine ⟨rfl, ?_, ?_, ?_⟩
  · intro h ht
    obtain ⟨first, rest, rfl⟩ := List.exists_cons_of_ne_nil h
    simp only [List.head_cons] at ht
    exact updateReleaseBundleRepoKeyWithProject_skip first rest ht
  · intro h ht
    obtain ⟨first, rest, rfl⟩ := List.exists_cons_of_ne_nil h
    simp only [List.head_cons] at ht
    rw [updateReleaseBundleRepoKeyWithProject_act first rest ht]
    constructor
    · exact List.length_map _ _
    · intro i hi hi2
      simp only [List.get_eq_getElem, List.getElem_map]
      exact ⟨trivial, trivial, trivial, trivial, trivial, trivial⟩
  · intro rb
    refine ⟨?_, ?_, ?_, ?_, ?_⟩
    · unfold updateRepoKeyOfReleaseBundleSource
      split <;> rfl
    · unfold updateRepoKeyOfReleaseBundleSource
      split <;> rfl
    · unfold updateRepoKeyOfReleaseBundleSource
      split <;> rfl
    · intro hp
      unfold updateRepoKeyOfReleaseBundleSource
      rw [if_pos hp]
    · intro hp
      unfold updateRepoKeyOfReleaseBundleSource
      rw [if_neg (fun hc => hc hp)]

def c5BuildsSource : RbSource where
  sourceType := "builds"
  builds := [{ buildName := "test-build", buildNumber := "1" }]

def c5ReleaseBundlesSource : RbSource where
  sourceType := "release_bundles"
  releaseBundles := [{ releaseBundleName := "bundle1", releaseBundleVersion := "1.0.0",
                       projectKey := "myproject" }]

/-- C5 witness: the frame theorem applied at a mixed list with the builds
source first (no change) and at a singleton release-bundles list (the
transform runs, preserving length). -/
theorem C5_frame_witness :
    updateReleaseBundleRepoKeyWithProject [c5BuildsSource, c5ReleaseBundlesSource] =
      [c5BuildsSource, c5ReleaseBundlesSource] ∧
    (updateReleaseBundleRepoKeyWithProject [c5ReleaseBundlesSource]).length = 1 ∧
    (updateRepoKeyOfReleaseBundleSource
      { releaseBundleName := "bundle1", releaseBundleVersion := "1.0.0",
        projectKey := "myproject" }).repositoryKey = "myproject-release-bundles-v2" :=
  ⟨(C5_frame [c5BuildsSource, c5ReleaseBundlesSource]).2.1 (by decide) (by decide),
   ((C5_frame [c5ReleaseBundlesSource]).2.2.1 (by decide) (by decide)).1,
   ((C5_frame []).2.2.2 _).2.2.2.1 (by decide)⟩

/-! ## Claims C9, C10: command-line source strings -/

lemma goSplitN2_eq_none_of_not_mem (l : List Char) (h : '=' ∉ l) :
    goSplitN2 '=' l = none := by
  induction l with
  | nil => rfl
  | cons c rest ih =>
    have hc : ¬ c = '=' := by
      intro hc
      apply h
      rw [← hc]
      exact List.mem_cons_self c rest
    have hrest : '=' ∉ rest := fun hm => h (List.mem_cons_of_mem c hm)
    simp only [goSplitN2]
    rw [if_neg hc, ih hrest]
    rfl

lemma goSplitAux_ne_nil (sep : Char) (l : List Char) : ∀ acc : List Char,
    goSplitAux sep l acc ≠ [] := by
  induction l with
  | nil =>
    intro acc
    simp [goSplitAux]
  | cons c rest ih =>
    intro acc
    simp only [goSplitAux]
    by_cases hc : c = sep
    · rw [if_pos hc]
      simp
    · rw [if_neg hc]
      exact ih (c :: acc)

lemma length_pos_of_map_goSplit {α : Type} (f : String → α) (s : String) (sep : Char) :
    0 < ((goSplit s sep).map f).length := by
  rw [List.length_map]
  apply List.length_pos.mpr
  unfold goSplit
  intro hm
  exact goSplitAux_ne_nil sep s.toList [] (List.map_eq_nil_iff.mp hm)

/-- C9: building build sources from a command-line string never fails (the
embedding is a total function); a comma-separated pair lacking \x27=\x27 contributes
nothing to the key-value map; and the concrete string "name=b1,id=5" yields a
single builds-typed RbSource with exactly one BuildSource carrying BuildName
"b1" and BuildNumber "5" (and no dependencies flag). -/
theorem C9_parse :
    (∀ (result : String → String) (pair : String), '=' ∉ pair.toList →
      parseKeyValueStep result pair = result) ∧
    (∀ projectKey : String,
      buildRbBuildsSources "name=b1,id=5" projectKey [] =
        [{ sourceType := "builds",
           builds := [{ buildRepository := GetBuildInfoRepositoryByProject projectKey,
                        buildName := "b1", buildNumber := "5",
                        includeDependencies := false }] }]) := by
  constructor
  · intro result pair h
    unfold parseKeyValueStep
    rw [goSplitN2_eq_none_of_not_mem _ h]
  · intro projectKey
    rfl

/-- C9 witness: a pair without \x27=\x27 is skipped, and the concrete flag string
from the spec's scenario builds the expected single source. -/
theorem C9_parse_witness :
    parseKeyValueStep (fun _ => "") "junk" = (fun _ => "") ∧
    buildRbBuildsSources "name=b1,id=5" "proj" [] =
      [{ sourceType := "builds",
         builds := [{ buildRepository := GetBuildInfoRepositoryByProject "proj",
                      buildName := "b1", buildNumber := "5",
                      includeDependencies := false }] }] :=
  ⟨C9_parse.1 _ "junk" (by decide), C9_parse.2 "proj"⟩

lemma buildRbBuildsSources_nil_case (s pk : String) :
    ∃ bs, buildRbBuildsSources s pk [] = [{ sourceType := "builds", builds := bs }] := by
  unfold buildRbBuildsSources
  rw [if_pos (length_pos_of_map_goSplit _ _ _)]
  exact ⟨_, rfl⟩

lemma buildRbReleaseBundlesSources_singleton (s pk : String) (src : RbSource) :
    ∃ rbs, buildRbReleaseBundlesSources s pk [src] =
      [src, { sourceType := "release_bundles", releaseBundles := rbs }] := by
  unfold buildRbReleaseBundlesSources
  rw [if_pos (length_pos_of_map_goSplit _ _ _)]
  exact ⟨_, rfl⟩

/-- C10: whenever both multi-source flags are non-empty strings, the assembled
flag-derived list (create and update alike) has exactly two elements, the
builds source first and the release-bundles source second; consequently the
first element's type is "builds" and updateReleaseBundleRepoKeyWithProject
leaves the list unchanged. -/
theorem C10_order (rbc : ReleaseBundleCreateCommand) (rbu : ReleaseBundleUpdateCommand) :
    (rbc.sourcesBuilds ≠ "" → rbc.sourcesReleaseBundles ≠ "" →
      (buildReleaseBundleSourcesParams rbc).length = 2 ∧
      ((buildReleaseBundleSourcesParams rbc).head?.map fun s => s.sourceType) =
        some "builds" ∧
      ((buildReleaseBundleSourcesParams rbc).getLast?.map fun s => s.sourceType) =
        some "release_bundles" ∧
      updateReleaseBundleRepoKeyWithProject (buildReleaseBundleSourcesParams rbc) =
        buildReleaseBundleSourcesParams rbc) ∧
    (rbu.sourcesBuilds ≠ "" → rbu.sourcesReleaseBundles ≠ "" →
      (buildSourcesFromCommandFlags rbu).length = 2 ∧
      ((buildSourcesFromCommandFlags rbu).head?.map fun s => s.sourceType) =
        some "builds" ∧
      ((buildSourcesFromCommandFlags rbu).getLast?.map fun s => s.sourceType) =
        some "release_bundles" ∧
      updateReleaseBundleRepoKeyWithProject (buildSourcesFromCommandFlags rbu) =
        buildSourcesFromCommandFlags rbu) := by
  constructor
  · intro hb hr
    obtain ⟨bs, hbs⟩ := buildRbBuildsSources_nil_case rbc.sourcesBuilds rbc.rbProjectKey
    obtain ⟨rbs, hrbs⟩ := buildRbReleaseBundlesSources_singleton rbc.sourcesReleaseBundles
      rbc.rbProjectKey { sourceType := "builds", builds := bs }
    have hparams : buildReleaseBundleSourcesParams rbc =
        [{ sourceType := "builds", builds := bs },
         { sourceType := "release_bundles", releaseBundles := rbs }] := by
      simp only [buildReleaseBundleSourcesParams]
      rw [if_pos hr, if_pos hb, hbs, hrbs]
    rw [hparams]
    refine ⟨rfl, rfl, rfl, ?_⟩
    exact updateReleaseBundleRepoKeyWithProject_skip _ _ (by simp)
  · intro hb hr
    obtain ⟨bs, hbs⟩ := buildRbBuildsSources_nil_case rbu.sourcesBuilds rbu.rbProjectKey
    obtain ⟨rbs, hrbs⟩ := buildRbReleaseBundlesSources_singleton rbu.sourcesReleaseBundles
      rbu.rbProjectKey { sourceType := "builds", builds := bs }
    have hparams : buildSourcesFromCommandFlags rbu =
        [{ sourceType := "builds", builds := bs },
         { sourceType := "release_bundles", releaseBundles := rbs }] := by
      simp only [buildSourcesFromCommandFlags]
      rw [if_pos hr, if_pos hb, hbs, hrbs]
    rw [hparams]
    refine ⟨rfl, rfl, rfl, ?_⟩
    exact updateReleaseBundleRepoKeyWithProject_skip _ _ (by simp)

def c10CreateExample : ReleaseBundleCreateCommand where
  sourcesBuilds := "name=b1,id=5"
  sourcesReleaseBundles := "name=rb1,version=1.0.0"

def c10UpdateExample : ReleaseBundleUpdateCommand where
  sourcesBuilds := "name=b1,id=5"
  sourcesReleaseBundles := "name=rb1,version=1.0.0"

/-- C10 witness: the ordering theorem applied at concrete flag strings for both
the create and the update command. -/
theorem C10_order_witness :
    updateReleaseBundleRepoKeyWithProject (buildReleaseBundleSourcesParams c10CreateExample) =
      buildReleaseBundleSourcesParams c10CreateExample ∧
    ((buildSourcesFromCommandFlags c10UpdateExample).head?.map fun s => s.sourceType) =
      some "builds" :=
  ⟨((C10_order c10CreateExample c10UpdateExample).1 (by decide) (by decide)).2.2.2,
   ((C10_order c10CreateExample c10UpdateExample).2 (by decide) (by decide)).2.1⟩

/-! ## Claim C6: flag-over-spec precedence in create and update -/

/-- C6: for both create (getMultipleSourcesIfDefined) and update
(getAddSources), a non-empty sources-builds or sources-release-bundles flag
makes the payload exactly the flag-built one and the result independent of the
spec field; with both flags empty, resolution falls back to the spec, which
must be present (create errors with "no spec file input", update with "no spec
file or source flags provided") and non-empty (an empty file-group list makes
the update fall into validateCreationSources' missing-sources error). -/
theorem C6_precedence :
    (∀ (env : Collaborators) (rbc : ReleaseBundleCreateCommand),
      rbc.sourcesBuilds ≠ "" ∨ rbc.sourcesReleaseBundles ≠ "" →
      getMultipleSourcesIfDefined env rbc = .ok (buildReleaseBundleSourcesParams rbc)) ∧
    (∀ (env : Collaborators) (rbc : ReleaseBundleCreateCommand) (sp : Option SpecFiles),
      rbc.sourcesBuilds ≠ "" ∨ rbc.sourcesReleaseBundles ≠ "" →
      getMultipleSourcesIfDefined env { rbc with spec := sp } =
        getMultipleSourcesIfDefined env rbc) ∧
    (∀ (env : Collaborators) (rbc : ReleaseBundleCreateCommand),
      rbc.sourcesBuilds = "" → rbc.sourcesReleaseBundles = "" →
      (rbc.spec = none ∨ rbc.spec = some { files := none }) →
      getMultipleSourcesIfDefined env rbc = .error "no spec file input") ∧
    (∀ (env : Collaborators) (rbu : ReleaseBundleUpdateCommand),
      rbu.sourcesBuilds ≠ "" ∨ rbu.sourcesReleaseBundles ≠ "" →
      getAddSources env rbu = .ok (buildSourcesFromCommandFlags rbu)) ∧
    (∀ (env : Collaborators) (rbu : ReleaseBundleUpdateCommand) (sp : Option SpecFiles),
      rbu.sourcesBuilds ≠ "" ∨ rbu.sourcesReleaseBundles ≠ "" →
      getAddSources env { rbu with spec := sp } = getAddSources env rbu) ∧
    (∀ (env : Collaborators) (rbu : ReleaseBundleUpdateCommand),
      rbu.sourcesBuilds = "" → rbu.sourcesReleaseBundles = "" →
      (rbu.spec = none ∨ rbu.spec = some { files := none }) →
      getAddSources env rbu = .error noSpecOrSourceFlagsErrMsg) ∧
    (∀ (env : Collaborators) (rbu : ReleaseBundleUpdateCommand),
      rbu.sourcesBuilds = "" → rbu.sourcesReleaseBundles = "" →
      rbu.spec = some { files := some [] } →
      getAddSources env rbu = .error missingCreationSourcesErrMsg) := by
  refine ⟨?_, ?_, ?_, ?_, ?_, ?_, ?_⟩
  · intro env rbc h
    have hflag : atLeastASingleMultiSourceRBDefinedFromCommand rbc = true := by
      rcases h with h | h
      · simp [atLeastASingleMultiSourceRBDefinedFromCommand, h]
      · simp [atLeastASingleMultiSourceRBDefinedFromCommand, h]
    simp [getMultipleSourcesIfDefined, hflag]
  · intro env rbc sp h
    have hflag : atLeastASingleMultiSourceRBDefinedFromCommand rbc = true := by
      rcases h with h | h
      · simp [atLeastASingleMultiSourceRBDefinedFromCommand, h]
      · simp [atLeastASingleMultiSourceRBDefinedFromCommand, h]
    have hflag2 : atLeastASingleMultiSourceRBDefinedFromCommand { rbc with spec := sp } =
        true := hflag
    simp [getMultipleSourcesIfDefined, hflag, hflag2]
    rfl
  · intro env rbc hb hr hspec
    have hflag : atLeastASingleMultiSourceRBDefinedFromCommand rbc = false := by
      simp [atLeastASingleMultiSourceRBDefinedFromCommand, hb, hr]
    rcases hspec with hspec | hspec
    · simp [getMultipleSourcesIfDefined, hflag, multiSourcesDefinedFromSpec, hspec]
    · simp [getMultipleSourcesIfDefined, hflag, multiSourcesDefinedFromSpec, hspec]
  · intro env rbu h
    have hflag : (decide (rbu.sourcesBuilds ≠ "") ||
        decide (rbu.sourcesReleaseBundles ≠ "")) = true := by
      rcases h with h | h
      · simp [h]
      · simp [h]
    unfold getAddSources
    rw [if_pos hflag]
  · intro env rbu sp h
    have hflag : (decide (rbu.sourcesBuilds ≠ "") ||
        decide (rbu.sourcesReleaseBundles ≠ "")) = true := by
      rcases h with h | h
      · simp [h]
      · simp [h]
    have harg : buildSourcesFromCommandFlags { rbu with spec := sp } =
        buildSourcesFromCommandFlags rbu := rfl
    simp only [getAddSources, harg]
    rw [if_pos hflag, if_pos hflag]
  · intro env rbu hb hr hspec
    rcases hspec with hspec | hspec
    · simp [getAddSources, hb, hr, hspec]
    · simp [getAddSources, hb, hr, hspec]
  · intro env rbu hb hr hspec
    simp [getAddSources, hb, hr, hspec, buildSourcesFromSpec, detectSourceTypesFromSpec,
      validateCreationSources]

def offlineCollaborators : Collaborators where
  resolveBuildIdentifier := fun _ _ => .error "offline"
  latestBuildNumber := fun _ _ => .error "offline"
  searchArtifacts := fun _ => .error "offline"
  readBuildsSpec := fun _ => .error "offline"
  readReleaseBundlesSpec := fun _ => .error "offline"

/-- C6 witness: the precedence theorem applied at concrete commands — a create
and an update with a builds flag set (flag-built payload), an update with
neither flags nor spec (missing-input error), and an update with an empty spec
file-group list (missing-creation-sources error). -/
theorem C6_precedence_witness :
    getMultipleSourcesIfDefined offlineCollaborators
      { sourcesBuilds := "name=b1,id=5" } =
      .ok (buildReleaseBundleSourcesParams { sourcesBuilds := "name=b1,id=5" }) ∧
    getAddSources offlineCollaborators { sourcesBuilds := "name=b1,id=5" } =
      .ok (buildSourcesFromCommandFlags { sourcesBuilds := "name=b1,id=5" }) ∧
    getAddSources offlineCollaborators { sourcesBuilds := "" } =
      .error noSpecOrSourceFlagsErrMsg ∧
    getAddSources offlineCollaborators { spec := some { files := some [] } } =
      .error missingCreationSourcesErrMsg :=
  ⟨C6_precedence.1 _ _ (Or.inl (by decide)),
   C6_precedence.2.2.2.1 _ _ (Or.inl (by decide)),
   C6_precedence.2.2.2.2.2.1 _ _ rfl rfl (Or.inl rfl),
   C6_precedence.2.2.2.2.2.2 _ _ rfl rfl rfl⟩

/-! ## Claim C8: creation-spec resolution precedence (CLI layer) -/

/-- C8, counterexample: with the deprecated builds path flag also set, the spec
flag is NOT used — the builds/release-bundles flag check precedes the spec
check and returns an empty spec, so "when the spec flag is set, the spec is
used" fails as a universal statement, and no missing-input error is produced
either. -/
theorem C8_counterexample :
    getReleaseBundleCreationSpec
      { buildsFlagSet := true, specFlagSet := true,
        buildNameFlag := some "b", buildNumberFlag := some "1" } =
      CreationSpecResult.noSpec ∧
    CreationSpecResult.noSpec ≠ CreationSpecResult.specFromFile :=
  ⟨by decide, by decide⟩

/-- C8 (amended): provided the deprecated builds/release-bundles flags and the
two multi-source source-type flags are unset: a set spec flag short-circuits
the build-name/number lookup and the spec is used regardless of the build-name
and build-number flags; with the spec flag unset, both build name and number
(flag value if set, else environment variable) present yields a spec built
from them, and otherwise the fixed error naming the spec flag, both build
flags and both environment variables is returned. -/
theorem C8_amended (c : CreationSpecContext)
    (hb : c.buildsFlagSet = false) (hrb : c.releaseBundlesFlagSet = false)
    (hsrb : c.sourceTypeReleaseBundlesFlagSet = false)
    (hsb : c.sourceTypeBuildsFlagSet = false) :
    (c.specFlagSet = true → getReleaseBundleCreationSpec c =
      CreationSpecResult.specFromFile) ∧
    (c.specFlagSet = false →
      getStringFlagOrEnv c.buildNameFlag c.envBuildName ≠ "" →
      getStringFlagOrEnv c.buildNumberFlag c.envBuildNumber ≠ "" →
      getReleaseBundleCreationSpec c =
        CreationSpecResult.specFromBuildIdentity
          (getStringFlagOrEnv c.buildNameFlag c.envBuildName)
          (getStringFlagOrEnv c.buildNumberFlag c.envBuildNumber) c.project) ∧
    (c.specFlagSet = false →
      (getStringFlagOrEnv c.buildNameFlag c.envBuildName = "" ∨
       getStringFlagOrEnv c.buildNumberFlag c.envBuildNumber = "") →
      getReleaseBundleCreationSpec c =
        CreationSpecResult.failure missingCreationSpecInputErrMsg) := by
  refine ⟨?_, ?_, ?_⟩
  · intro hs
    simp [getReleaseBundleCreationSpec, hb, hrb, hsrb, hsb, hs]
  · intro hs h1 h2
    simp [getReleaseBundleCreationSpec, hb, hrb, hsrb, hsb, hs, h1, h2]
  · intro hs h
    rcases h with h | h
    · simp [getReleaseBundleCreationSpec, hb, hrb, hsrb, hsb, hs, h]
    · simp [getReleaseBundleCreationSpec, hb, hrb, hsrb, hsb, hs, h]

/-- C8 witness: the amended theorem applied at three concrete contexts — spec
flag set together with build flags (spec wins), only build-name/number flags
set, and only the build-name environment variable set (error). -/
theorem C8_amended_witness :
    getReleaseBundleCreationSpec
      { specFlagSet := true, buildNameFlag := some "b", buildNumberFlag := some "1" } =
      CreationSpecResult.specFromFile ∧
    getReleaseBundleCreationSpec
      { buildNameFlag := some "b", buildNumberFlag := some "1", project := "p" } =
      CreationSpecResult.specFromBuildIdentity "b" "1" "p" ∧
    getReleaseBundleCreationSpec { envBuildName := "eb" } =
      CreationSpecResult.failure missingCreationSpecInputErrMsg :=
  ⟨(C8_amended _ rfl rfl rfl rfl).1 rfl,
   (C8_amended _ rfl rfl rfl rfl).2.1 rfl (by decide) (by decide),
   (C8_amended _ rfl rfl rfl rfl).2.2 rfl (Or.inr rfl)⟩
